import Mathlib

/-!
Verification of the gaiaCore Python client (`gaiacore_client.py`).

The file shallowly embeds the client's request-building logic and the
four-stage `run_full_pipeline` orchestrator.  JSON values are modelled by an
inductive `Json` type; Python dictionary/list access, truthiness and string
conversion are modelled by explicit total functions; every remote call is an
oracle supplied through an `Env` record, returning `Except String Json`
(an exception message or a decoded JSON result).  The pipeline embedding
additionally records which stages were attempted and which remote calls were
issued, so that "stage N never runs" and "function F is called with
arguments A" become provable statements.
-/

namespace GaiaCore

/-- JSON values as decoded by `response.json()`. -/
inductive Json where
  | null : Json
  | bool (b : Bool) : Json
  | num (n : Int) : Json
  | str (s : String) : Json
  | arr (xs : List Json) : Json
  | obj (fields : List (String × Json)) : Json

namespace Json

/-- Python truthiness of a JSON value (`if x:`). -/
def pyTruthy : Json → Bool
  | .null => false
  | .bool b => b
  | .num n => n ≠ 0
  | .str s => s ≠ ""
  | .arr xs => !xs.isEmpty
  | .obj fs => !fs.isEmpty

/-- Key lookup in an object's field list (first binding wins, as in a dict). -/
def lookupField (fs : List (String × Json)) (k : String) : Option Json :=
  match fs with
  | [] => none
  | (k', v) :: rest => if k' = k then some v else lookupField rest k

/-- `d.get(k)` — `None` when the key is absent; a Python `AttributeError`
(modelled as `Except.error`) when the receiver is not a dict. -/
def pyGet (j : Json) (k : String) : Except String (Option Json) :=
  match j with
  | .obj fs => .ok (lookupField fs k)
  | _ => .error ("AttributeError: object has no attribute " ++ "get")

/-- `d.get(k, default)`. -/
def pyGetD (j : Json) (k : String) (default : Json) : Except String Json :=
  match j with
  | .obj fs => .ok ((lookupField fs k).getD default)
  | _ => .error ("AttributeError: object has no attribute " ++ "get")

/-- `x[0]` — first element of a list (or first character of a string);
an exception for the other shapes. -/
def pyIndexZero : Json → Except String Json
  | .arr (x :: _) => .ok x
  | .arr [] => .error "list index out of range"
  | .str s =>
      match s.toList with
      | c :: _ => .ok (.str (String.mk [c]))
      | [] => .error "string index out of range"
  | _ => .error "TypeError: object is not subscriptable"

/-- `x[k]` for a string key `k` — dict lookup; `KeyError` when the key is
missing, `TypeError` when the receiver is not a dict. -/
def pySubscript (j : Json) (k : String) : Except String Json :=
  match j with
  | .obj fs =>
      match lookupField fs k with
      | some v => .ok v
      | none => .error ("KeyError: " ++ k)
  | _ => .error "TypeError: object is not subscriptable"

/-- Python `str()` of a decoded JSON value, as used by an f-string. -/
def pyStr : Json → String
  | .null => "None"
  | .bool b => if b then "True" else "False"
  | .num n => toString n
  | .str s => s
  | .arr _ => "[...]"
  | .obj _ => "{...}"

end Json

/-- Python truthiness of an optional string argument
(`None` and `""` are falsy). -/
def optStrTruthy : Option String → Bool
  | none => false
  | some s => s ≠ ""

/-- Python truthiness of an optional integer argument
(`None` and `0` are falsy). -/
def optIntTruthy : Option Int → Bool
  | none => false
  | some n => n ≠ 0

/-! ### Python dictionaries of string keys and string values

Query-parameter and header dictionaries are insertion-ordered maps; storing
under an existing key overwrites the value in place. -/

/-- `d[k] = v` on an insertion-ordered dictionary: overwrite in place when
the key is present (keys are unique in a dict, so replacing the first
occurrence is replacing the occurrence), append otherwise. -/
def dictSet : List (String × String) → String → String → List (String × String)
  | [], k, v => [(k, v)]
  | kv :: rest, k, v => if kv.1 = k then (k, v) :: rest else kv :: dictSet rest k v

/-- `k in d`. -/
def dictHasKey (d : List (String × String)) (k : String) : Bool :=
  d.any (fun kv => kv.1 = k)

/-! ### URL construction (`__init__`, `_request`, `_rpc`)

`self.base_url = base_url.rstrip('/')` and `urljoin(self.base_url, endpoint)`.
`urljoin` is modelled for the shapes the client produces: an absolute
`scheme://authority/path` base and a relative-path reference.  Per RFC 3986
relative resolution (which `urllib.parse.urljoin` implements), the reference
replaces everything after the last `/` of the base's path; a base with an
empty path gets `/` prepended to the reference. -/

/-- `base_url.rstrip('/')`. -/
def rstripSlash (s : String) : String :=
  String.mk ((s.toList.reverse.dropWhile (· = '/')).reverse)

/-- Split `scheme://rest` into `(scheme, rest)` at the first occurrence of
`://`; `none` if no `://` occurs. -/
def splitScheme : List Char → Option (List Char × List Char)
  | [] => none
  | c :: rest =>
      if c = ':' ∧ rest.take 2 = ['/', '/'] then some ([], rest.drop 2)
      else (splitScheme rest).map (fun p => (c :: p.1, p.2))

/-- Split `authority/path` into the authority (up to the first `/`)
and the path (from the first `/`, inclusive; empty if none). -/
def splitAuthority (cs : List Char) : List Char × List Char :=
  (cs.takeWhile (· ≠ '/'), cs.dropWhile (· ≠ '/'))

/-- The base path truncated after its last `/` (the "directory" part used by
RFC 3986 merging). -/
def dirPart (path : List Char) : List Char :=
  (path.reverse.dropWhile (· ≠ '/')).reverse

/-- `urljoin(base, rel)` for an absolute base and a relative-path reference. -/
def urljoinRelative (base rel : String) : String :=
  match splitScheme base.toList with
  | none => rel
  | some (scheme, rest) =>
      let (auth, path) := splitAuthority rest
      let merged := if path.isEmpty then '/' :: rel.toList else dirPart path ++ rel.toList
      String.mk (scheme ++ [':', '/', '/'] ++ auth ++ merged)

/-- The client's only state: `self.base_url`, set by `__init__` to
`base_url.rstrip('/')`. -/
structure GaiaCoreClient where
  base_url : String

/-- `GaiaCoreClient(base_url)`. -/
def clientInit (base_url : String) : GaiaCoreClient :=
  { base_url := rstripSlash base_url }

/-- The URL a `_request` GET is issued to: `urljoin(self.base_url, endpoint)`. -/
def requestUrl (c : GaiaCoreClient) (endpoint : String) : String :=
  urljoinRelative c.base_url endpoint

/-- The URL an `_rpc` POST is issued to:
`urljoin(self.base_url, f"rpc/{function_name}")`. -/
def rpcUrl (c : GaiaCoreClient) (function_name : String) : String :=
  urljoinRelative c.base_url ("rpc/" ++ function_name)

/-! ### Request headers (`_request` lines 50–53, `_rpc` lines 72–76) -/

/-- Headers attached by `_request`. -/
def requestHeaders (schema : String) : List (String × String) :=
  let headers : List (String × String) := []
  if schema = "working" then dictSet headers "Accept-Profile" "working" else headers

/-- Headers attached by `_rpc`. -/
def rpcHeaders (schema : String) : List (String × String) :=
  let headers : List (String × String) := [("Content-Type", "application/json")]
  if schema = "working" then
    dictSet (dictSet headers "Content-Profile" "working") "Accept-Profile" "working"
  else headers

/-- A header is a profile header when it is `Accept-Profile` or
`Content-Profile`. -/
def isProfileHeader (h : String × String) : Bool :=
  h.1 = "Accept-Profile" || h.1 = "Content-Profile"

/-! ### Response handling (`_request` lines 55–57, `_rpc` lines 78–80) -/

/-- What the HTTP transport hands back for one attempt: the status code, the
raw body, and the body's JSON decoding (`none` when `response.json()` would
raise a decode error). -/
structure HttpResponse where
  status : Nat
  body : String
  jsonBody : Option Json

/-- How a read or RPC call can fail. -/
inductive RequestFailure where
  | transportError (msg : String)
  | httpError (status : Nat) (body : String)
  | jsonDecodeError (body : String)

/-- `response.raise_for_status()`: raises exactly for 4xx and 5xx statuses. -/
def raiseForStatus (r : HttpResponse) : Except RequestFailure Unit :=
  if 400 ≤ r.status ∧ r.status < 600 then .error (.httpError r.status r.body) else .ok ()

/-- `response.json()`. -/
def responseJson (r : HttpResponse) : Except RequestFailure Json :=
  match r.jsonBody with
  | some j => .ok j
  | none => .error (.jsonDecodeError r.body)

/-- Outcome of `_request` given the transport's result (a network failure or
a response): `raise_for_status` then `response.json()`. -/
def requestOutcome (transport : Except String HttpResponse) : Except RequestFailure Json :=
  match transport with
  | .error m => .error (.transportError m)
  | .ok r => do
      raiseForStatus r
      responseJson r

/-- Outcome of `_rpc` given the transport's result — the same
`raise_for_status` / `response.json()` sequence as `_request`. -/
def rpcOutcome (transport : Except String HttpResponse) : Except RequestFailure Json :=
  match transport with
  | .error m => .error (.transportError m)
  | .ok r => do
      raiseForStatus r
      responseJson r

/-! ### Query-parameter construction -/

/-- `get_data_sources(**filters)` line 94:
`params = {f"{k}": f"eq.{v}" for k, v in filters.items()}`. -/
def getDataSourcesParams (filters : List (String × String)) : List (String × String) :=
  filters.foldl (fun d kv => dictSet d kv.1 ("eq." ++ kv.2)) []

/-- `query(...)` lines 253–265. -/
def queryParams (select : Option String) (filters : List (String × String))
    (order : Option String) (limit offset : Option Int) : List (String × String) :=
  let params : List (String × String) := []
  let params := if optStrTruthy select then dictSet params "select" (select.getD "") else params
  let params :=
    if !filters.isEmpty then
      filters.foldl (fun d kv => dictSet d kv.1 ("eq." ++ kv.2)) params
    else params
  let params := if optStrTruthy order then dictSet params "order" (order.getD "") else params
  let params :=
    if optIntTruthy limit then dictSet params "limit" (toString (limit.getD 0)) else params
  let params :=
    if optIntTruthy offset then dictSet params "offset" (toString (offset.getD 0)) else params
  params

/-- A query parameter is an equality-filter parameter when its value carries
the `eq.` comparison prefix. -/
def isEqParam (kv : String × String) : Bool :=
  kv.2.toList.take 3 = ['e', 'q', '.']

/-- `get_locations(city, state, limit)` lines 138–142. -/
def getLocationsParams (city state : Option String) (limit : Int) : List (String × String) :=
  let params : List (String × String) := [("limit", toString limit)]
  let params := if optStrTruthy city then dictSet params "city" ("eq." ++ city.getD "") else params
  let params :=
    if optStrTruthy state then dictSet params "state" ("eq." ++ state.getD "") else params
  params

/-- `get_location_history(location_id, person_id)` lines 166–170; note the
`person_id` filter is sent under the key `entity_id`. -/
def getLocationHistoryParams (location_id person_id : Option Int) : List (String × String) :=
  let params : List (String × String) := []
  let params :=
    if optIntTruthy location_id then
      dictSet params "location_id" ("eq." ++ toString (location_id.getD 0))
    else params
  let params :=
    if optIntTruthy person_id then
      dictSet params "entity_id" ("eq." ++ toString (person_id.getD 0))
    else params
  params

/-! ### The pipeline orchestrator (`run_full_pipeline`, lines 304–418)

Remote calls are oracles in an `Env`; each returns either an exception
message (`Except.error`) or the decoded JSON result.  The embedding returns,
besides the Python result dictionary, the list of stages attempted and the
list of remote calls issued, in order. -/

/-- The four pipeline stages. -/
inductive Stage where
  | metadata
  | locations
  | ingestion
  | spatialJoin
deriving DecidableEq

/-- Chronological index of a stage. -/
def Stage.idx : Stage → Nat
  | .metadata => 1
  | .locations => 2
  | .ingestion => 3
  | .spatialJoin => 4

/-- A remote call issued during the pipeline, with its arguments. -/
inductive CallEvt where
  | fetchAndLoadJsonld (url : String)
  | loadLocationData (location_csv location_history_csv : String)
  | quickIngestDatasource (dataset_name : Json)
  | getDataSources (dataset_name : Json)
  | spatialJoinExposure (variable_source_id : String) (external_table : String)

/-- Oracles for the remote calls the pipeline makes.  Each is a pure function
of its arguments, returning the exception message raised or the decoded JSON
value returned. -/
structure Env where
  fetch_and_load_jsonld : String → Except String Json
  load_location_data : String → String → Except String Json
  quick_ingest_datasource : Json → Except String Json
  get_data_sources : Json → Except String Json
  spatial_join_exposure : String → String → Except String Json

/-- The `results` dictionary built by `run_full_pipeline`, instrumented with
the stages attempted and the remote calls issued. -/
structure PipelineResult where
  metadata : Option Json
  locations : Option Json
  ingestion : Option Json
  spatial_join : Option Json
  errors : List String
  trace : List Stage
  calls : List CallEvt

/-- Line 366: `dataset_name = results["metadata"][0]["dataset_name"]`. -/
def stage3Extract (m : Json) : Except String Json := do
  let first ← Json.pyIndexZero m
  Json.pySubscript first "dataset_name"

/-- Python truthiness of `ingested_table.get("table")`
(`None` when the key is absent). -/
def optJsonTruthy : Option Json → Bool
  | none => false
  | some t => t.pyTruthy

/-- The body of stage 4's `try` block (lines 386–403), run when a truthy
`variable_source_id` was supplied: returns the value stored in
`spatial_join`, the error message appended (if any), and the remote calls
issued. -/
def stage4Run (env : Env) (dataset_name : Json) (variable_source_id : String) :
    Option Json × Option String × List CallEvt :=
  match env.get_data_sources dataset_name with
  | .error e => (none, some ("Spatial join failed: " ++ e), [.getDataSources dataset_name])
  | .ok dsList =>
    match Json.pyIndexZero dsList with
    | .error e => (none, some ("Spatial join failed: " ++ e), [.getDataSources dataset_name])
    | .ok data_source =>
      match Json.pyGetD data_source "etl_metadata" (.obj []) with
      | .error e => (none, some ("Spatial join failed: " ++ e), [.getDataSources dataset_name])
      | .ok etl_metadata =>
        match Json.pyGetD etl_metadata "ingested_table" (.obj []) with
        | .error e => (none, some ("Spatial join failed: " ++ e), [.getDataSources dataset_name])
        | .ok ingested_table =>
          match Json.pyGetD ingested_table "schema" (.str "public") with
          | .error e => (none, some ("Spatial join failed: " ++ e), [.getDataSources dataset_name])
          | .ok schemaVal =>
            match Json.pyGet ingested_table "table" with
            | .error e => (none, some ("Spatial join failed: " ++ e), [.getDataSources dataset_name])
            | .ok tableOpt =>
              if optJsonTruthy tableOpt then
                let external_table := schemaVal.pyStr ++ "." ++ (tableOpt.getD .null).pyStr
                match env.spatial_join_exposure variable_source_id external_table with
                | .ok r =>
                    (some r, none,
                     [.getDataSources dataset_name,
                      .spatialJoinExposure variable_source_id external_table])
                | .error e =>
                    (none, some ("Spatial join failed: " ++ e),
                     [.getDataSources dataset_name,
                      .spatialJoinExposure variable_source_id external_table])
              else
                (none, some "Could not determine ingested table name",
                 [.getDataSources dataset_name])

/-- `run_full_pipeline(metadata_url, location_csv, location_history_csv,
variable_source_id)` (the `verbose` narration is cosmetic and not modelled). -/
def runFullPipeline (env : Env) (metadata_url location_csv location_history_csv : String)
    (variable_source_id : Option String) : PipelineResult :=
  match env.fetch_and_load_jsonld metadata_url with
  | .error e =>
      { metadata := none, locations := none, ingestion := none, spatial_join := none,
        errors := ["Metadata loading failed: " ++ e],
        trace := [.metadata],
        calls := [.fetchAndLoadJsonld metadata_url] }
  | .ok m =>
      let locs : Option Json :=
        match env.load_location_data location_csv location_history_csv with
        | .ok l => some l
        | .error _ => none
      let errs2 : List String :=
        match env.load_location_data location_csv location_history_csv with
        | .ok _ => []
        | .error e => ["Location loading failed: " ++ e]
      let callsPre : List CallEvt :=
        [.fetchAndLoadJsonld metadata_url,
         .loadLocationData location_csv location_history_csv]
      match stage3Extract m with
      | .error e =>
          { metadata := some m, locations := locs, ingestion := none, spatial_join := none,
            errors := errs2 ++ ["Data ingestion failed: " ++ e],
            trace := [.metadata, .locations, .ingestion],
            calls := callsPre }
      | .ok dataset_name =>
          match env.quick_ingest_datasource dataset_name with
          | .error e =>
              { metadata := some m, locations := locs, ingestion := none, spatial_join := none,
                errors := errs2 ++ ["Data ingestion failed: " ++ e],
                trace := [.metadata, .locations, .ingestion],
                calls := callsPre ++ [.quickIngestDatasource dataset_name] }
          | .ok ing =>
              if optStrTruthy variable_source_id then
                let s4 := stage4Run env dataset_name (variable_source_id.getD "")
                { metadata := some m, locations := locs, ingestion := some ing,
                  spatial_join := s4.1,
                  errors := errs2 ++ s4.2.1.toList,
                  trace := [.metadata, .locations, .ingestion, .spatialJoin],
                  calls := callsPre ++ [.quickIngestDatasource dataset_name] ++ s4.2.2 }
              else
                { metadata := some m, locations := locs, ingestion := some ing,
                  spatial_join := none,
                  errors := errs2,
                  trace := [.metadata, .locations, .ingestion],
                  calls := callsPre ++ [.quickIngestDatasource dataset_name] }

/-- The error message stage `s` records under environment `env` and the given
arguments (`none` when the stage succeeds, is skipped, or is never reached).
Each component mirrors the corresponding `except` clause of the source. -/
def stageErrorMsg (env : Env) (metadata_url location_csv location_history_csv : String)
    (variable_source_id : Option String) : Stage → Option String
  | .metadata =>
      match env.fetch_and_load_jsonld metadata_url with
      | .error e => some ("Metadata loading failed: " ++ e)
      | .ok _ => none
  | .locations =>
      match env.load_location_data location_csv location_history_csv with
      | .error e => some ("Location loading failed: " ++ e)
      | .ok _ => none
  | .ingestion =>
      match env.fetch_and_load_jsonld metadata_url with
      | .error _ => none
      | .ok m =>
          match stage3Extract m with
          | .error e => some ("Data ingestion failed: " ++ e)
          | .ok dataset_name =>
              match env.quick_ingest_datasource dataset_name with
              | .error e => some ("Data ingestion failed: " ++ e)
              | .ok _ => none
  | .spatialJoin =>
      match env.fetch_and_load_jsonld metadata_url with
      | .error _ => none
      | .ok m =>
          match stage3Extract m with
          | .error _ => none
          | .ok dataset_name =>
              match env.quick_ingest_datasource dataset_name with
              | .error _ => none
              | .ok _ =>
                  if optStrTruthy variable_source_id then
                    (stage4Run env dataset_name (variable_source_id.getD "")).2.1
                  else none

/-! ## Concrete environments used as witnesses and counterexamples -/

/-- Environment whose metadata fetch raises a transport error and whose other
calls succeed. -/
def envStage1Fails : Env where
  fetch_and_load_jsonld := fun _ => .error "Connection refused"
  load_location_data := fun _ _ => .ok .null
  quick_ingest_datasource := fun _ => .ok .null
  get_data_sources := fun _ => .ok (.arr [])
  spatial_join_exposure := fun _ _ => .ok .null

/-- A well-formed metadata response: `[{"dataset_name": "PM2.5",
"variables_loaded": 3}]`. -/
def sampleMetadata : Json :=
  .arr [.obj [("dataset_name", .str "PM2.5"), ("variables_loaded", .num 3)]]

/-- Environment where stages 1 and 2 succeed and the ingestion RPC raises. -/
def envStage3Fails : Env where
  fetch_and_load_jsonld := fun _ => .ok sampleMetadata
  load_location_data := fun _ _ => .ok (.obj [("status", .str "loaded")])
  quick_ingest_datasource := fun _ => .error "500 Server Error"
  get_data_sources := fun _ => .ok (.arr [])
  spatial_join_exposure := fun _ _ => .ok .null

/-- Environment where every stage succeeds; the data-source record's
`etl_metadata.ingested_table` names schema `exposure` and table `pm25_data`. -/
def envAllOk : Env where
  fetch_and_load_jsonld := fun _ => .ok sampleMetadata
  load_location_data := fun _ _ => .ok (.obj [("status", .str "loaded")])
  quick_ingest_datasource := fun _ => .ok (.arr [.obj [("step", .str "download"), ("status", .str "success")]])
  get_data_sources := fun _ =>
    .ok (.arr [.obj [("etl_metadata",
      .obj [("ingested_table",
        .obj [("schema", .str "exposure"), ("table", .str "pm25_data")])])]])
  spatial_join_exposure := fun _ _ => .ok (.obj [("rows", .num 42)])

/-- Environment identical to `envAllOk` except that the data-source record's
`ingested_table` carries the key `"table"` with the empty string as value. -/
def envEmptyTable : Env where
  fetch_and_load_jsonld := fun _ => .ok sampleMetadata
  load_location_data := fun _ _ => .ok (.obj [("status", .str "loaded")])
  quick_ingest_datasource := fun _ => .ok (.arr [.obj [("step", .str "download"), ("status", .str "success")]])
  get_data_sources := fun _ =>
    .ok (.arr [.obj [("etl_metadata",
      .obj [("ingested_table",
        .obj [("schema", .str "exposure"), ("table", .str "")])])]])
  spatial_join_exposure := fun _ _ => .ok (.obj [("rows", .num 42)])

/-! ## Dictionary lemmas -/

theorem dictHasKey_nil (k : String) : dictHasKey [] k = false := rfl

theorem dictHasKey_cons (kv : String × String) (d : List (String × String)) (k : String) :
    dictHasKey (kv :: d) k = (decide (kv.1 = k) || dictHasKey d k) := by
  simp [dictHasKey]

theorem dictHasKey_append (d d' : List (String × String)) (k : String) :
    dictHasKey (d ++ d') k = (dictHasKey d k || dictHasKey d' k) := by
  simp [dictHasKey]

/-- Setting a fresh key appends the binding at the end. -/
theorem dictSet_fresh (d : List (String × String)) (k v : String)
    (h : dictHasKey d k = false) : dictSet d k v = d ++ [(k, v)] := by
  induction d with
  | nil => rfl
  | cons kv rest ih =>
      rw [dictHasKey_cons] at h
      have h1 : kv.1 ≠ k := by
        intro he
        simp [he] at h
      have h2 : dictHasKey rest k = false := by
        rcases Bool.or_eq_false_iff.mp h with ⟨_, h2⟩
        exact h2
      simp [dictSet, h1, ih h2]

theorem dictHasKey_dictSet (d : List (String × String)) (k v k' : String) :
    dictHasKey (dictSet d k v) k' = (dictHasKey d k' || decide (k = k')) := by
  induction d with
  | nil => simp [dictSet, dictHasKey]
  | cons kv rest ih =>
      by_cases h : kv.1 = k
      · subst h
        simp [dictSet, dictHasKey_cons]
        cases hkk : decide (kv.1 = k') <;> simp_all
      · simp [dictSet, h, dictHasKey_cons, ih, Bool.or_assoc]

theorem dictHasKey_eq_false_of (d : List (String × String)) (k : String)
    (h : ∀ kv ∈ d, kv.1 ≠ k) : dictHasKey d k = false := by
  induction d with
  | nil => rfl
  | cons kv rest ih =>
      rw [dictHasKey_cons]
      simp [h kv (List.mem_cons_self kv rest),
        ih (fun kv' h' => h kv' (List.mem_cons_of_mem _ h'))]

/-- Conditionally setting a fresh key appends the binding (or nothing). -/
theorem dictSet_opt_fresh (d : List (String × String)) (b : Bool) (k v : String)
    (h : dictHasKey d k = false) :
    (if b then dictSet d k v else d) = d ++ (if b then [(k, v)] else []) := by
  cases b <;> simp [dictSet_fresh _ _ _ h]

/-- The keys present after folding in the filter comprehension are the
original keys together with the filters' keys. -/
theorem dictHasKey_foldl (filters : List (String × String))
    (d : List (String × String)) (k : String) :
    dictHasKey (filters.foldl (fun acc kv => dictSet acc kv.1 ("eq." ++ kv.2)) d) k =
      (dictHasKey d k || dictHasKey filters k) := by
  induction filters generalizing d with
  | nil => simp [dictHasKey_nil]
  | cons kv rest ih =>
      rw [List.foldl_cons, ih, dictHasKey_dictSet, dictHasKey_cons, Bool.or_assoc]

/-- Folding the filter dictionary comprehension over a dictionary whose keys
avoid the filters' keys appends one `eq.`-encoded binding per filter entry,
in order.  Filter keys are unique (they come from a Python dict). -/
theorem foldl_dictSet_eq_append (filters : List (String × String))
    (d : List (String × String))
    (hnd : (filters.map Prod.fst).Nodup)
    (hd : ∀ kv ∈ filters, dictHasKey d kv.1 = false) :
    filters.foldl (fun acc kv => dictSet acc kv.1 ("eq." ++ kv.2)) d =
      d ++ filters.map (fun kv => (kv.1, "eq." ++ kv.2)) := by
  induction filters generalizing d with
  | nil => simp
  | cons kv rest ih =>
      rw [List.foldl_cons, dictSet_fresh d kv.1 _ (hd kv (List.mem_cons_self kv rest))]
      rw [ih (d ++ [(kv.1, "eq." ++ kv.2)]) (List.nodup_cons.mp hnd).2]
      · simp
      · intro kv' hkv'
        rw [dictHasKey_append, dictHasKey_cons, dictHasKey_nil]
        have hne : kv.1 ≠ kv'.1 := by
          intro he
          exact (List.nodup_cons.mp hnd).1 (he ▸ List.mem_map_of_mem Prod.fst hkv')
        simp [hd kv' (List.mem_cons_of_mem kv hkv'), hne]

/-! ## Claim theorems -/

/-- C1: if stage 1 (`fetch_and_load_jsonld`) fails, the returned outcome has
exactly one error, a `Metadata loading failed: ...` message; `locations`,
`ingestion` and `spatial_join` remain unset; stages 2–4 are never attempted
and no further remote call is issued. -/
theorem stage1_failure_short_circuits
    (env : Env) (u lc lhc : String) (v : Option String) (e : String)
    (h : env.fetch_and_load_jsonld u = .error e) :
    runFullPipeline env u lc lhc v =
      { metadata := none, locations := none, ingestion := none, spatial_join := none,
        errors := ["Metadata loading failed: " ++ e],
        trace := [.metadata],
        calls := [.fetchAndLoadJsonld u] } := by
  simp [runFullPipeline, h]

/-- Witness for C1 at a concrete failing environment. -/
theorem stage1_failure_short_circuits_witness :
    runFullPipeline envStage1Fails "http://x/meta.jsonld" "/csv/LOCATION.csv"
        "/csv/LOCATION_HISTORY.csv" none =
      { metadata := none, locations := none, ingestion := none, spatial_join := none,
        errors := ["Metadata loading failed: Connection refused"],
        trace := [.metadata],
        calls := [.fetchAndLoadJsonld "http://x/meta.jsonld"] } :=
  stage1_failure_short_circuits envStage1Fails "http://x/meta.jsonld" "/csv/LOCATION.csv"
    "/csv/LOCATION_HISTORY.csv" none "Connection refused" rfl

/-- The outcome's `errors` list is exactly the per-stage error messages of
the attempted stages, in trace order. -/
theorem runFullPipeline_errors_eq (env : Env) (u lc lhc : String) (v : Option String) :
    (runFullPipeline env u lc lhc v).errors =
      (runFullPipeline env u lc lhc v).trace.filterMap (stageErrorMsg env u lc lhc v) := by
  unfold runFullPipeline
  cases hf : env.fetch_and_load_jsonld u with
  | error e => simp [stageErrorMsg, hf]
  | ok m =>
    cases h3 : stage3Extract m with
    | error e3 =>
      cases hl : env.load_location_data lc lhc <;>
        simp [stageErrorMsg, hf, hl, h3]
    | ok d =>
      cases hq : env.quick_ingest_datasource d with
      | error e4 =>
        cases hl : env.load_location_data lc lhc <;>
          simp [stageErrorMsg, hf, hl, h3, hq]
      | ok ing =>
        cases hv : optStrTruthy v with
        | false =>
          cases hl : env.load_location_data lc lhc <;>
            simp [stageErrorMsg, hf, hl, h3, hq, hv]
        | true =>
          cases h4 : (stage4Run env d (v.getD "")).2.1 with
          | none =>
            cases hl : env.load_location_data lc lhc <;>
              simp [stageErrorMsg, hf, hl, h3, hq, hv, h4]
          | some e5 =>
            cases hl : env.load_location_data lc lhc <;>
              simp [stageErrorMsg, hf, hl, h3, hq, hv, h4]

/-- The attempted stages are recorded in strictly increasing chronological
order. -/
theorem runFullPipeline_trace_sorted (env : Env) (u lc lhc : String) (v : Option String) :
    (runFullPipeline env u lc lhc v).trace.Pairwise (fun a b => a.idx < b.idx) := by
  unfold runFullPipeline
  cases hf : env.fetch_and_load_jsonld u with
  | error e => simp
  | ok m =>
    cases h3 : stage3Extract m with
    | error e3 => simp [h3]; decide
    | ok d =>
      cases hq : env.quick_ingest_datasource d with
      | error e4 => simp [h3, hq]; decide
      | ok ing =>
        cases hv : optStrTruthy v <;> simp [h3, hq, hv] <;> decide

/-- C2: `run_full_pipeline` is a total function of its environment — it
returns exactly one outcome and never raises (the embedding is a total Lean
function precisely because every stage body's exception is consumed into the
outcome); its `errors` list is exactly the per-stage messages of the failed
attempted stages, listed in the chronological order the stages were
attempted. -/
theorem pipeline_total_errors_chronological
    (env : Env) (u lc lhc : String) (v : Option String) :
    (runFullPipeline env u lc lhc v).errors =
      (runFullPipeline env u lc lhc v).trace.filterMap (stageErrorMsg env u lc lhc v) ∧
    (runFullPipeline env u lc lhc v).trace.Pairwise (fun a b => a.idx < b.idx) :=
  ⟨runFullPipeline_errors_eq env u lc lhc v, runFullPipeline_trace_sorted env u lc lhc v⟩

/-- C8: with no `variable_source_id`, stage 4 is never attempted,
`spatial_join` stays unset, and every error entry comes from one of the
attempted stages 1–3. -/
theorem omitted_variable_skips_stage4 (env : Env) (u lc lhc : String) :
    (runFullPipeline env u lc lhc none).spatial_join = none ∧
    Stage.spatialJoin ∉ (runFullPipeline env u lc lhc none).trace ∧
    (runFullPipeline env u lc lhc none).errors =
      (runFullPipeline env u lc lhc none).trace.filterMap (stageErrorMsg env u lc lhc none) := by
  refine ⟨?_, ?_, runFullPipeline_errors_eq env u lc lhc none⟩ <;>
  · unfold runFullPipeline
    cases hf : env.fetch_and_load_jsonld u with
    | error e => simp
    | ok m =>
      cases h3 : stage3Extract m with
      | error e3 => simp [h3]
      | ok d =>
        cases hq : env.quick_ingest_datasource d with
        | error e4 => simp [h3, hq]
        | ok ing => simp [h3, hq, optStrTruthy]

/-- C3: if stages 1 and 2 succeed and stage 3 (`quick_ingest_datasource`)
fails, the outcome's errors hold exactly stage 3's `Data ingestion failed:`
message, stage 4 is never attempted, `spatial_join` stays unset, and
`locations` holds stage 2's result. -/
theorem stage3_failure_short_circuits
    (env : Env) (u lc lhc : String) (v : Option String) (m l d : Json) (e : String)
    (h1 : env.fetch_and_load_jsonld u = .ok m)
    (h2 : env.load_location_data lc lhc = .ok l)
    (h3 : stage3Extract m = .ok d)
    (h4 : env.quick_ingest_datasource d = .error e) :
    runFullPipeline env u lc lhc v =
      { metadata := some m, locations := some l, ingestion := none, spatial_join := none,
        errors := ["Data ingestion failed: " ++ e],
        trace := [.metadata, .locations, .ingestion],
        calls := [.fetchAndLoadJsonld u, .loadLocationData lc lhc,
                  .quickIngestDatasource d] } := by
  simp [runFullPipeline, h1, h2, h3, h4]

/-- Witness for C3 at a concrete environment. -/
theorem stage3_failure_short_circuits_witness :
    runFullPipeline envStage3Fails "http://x/meta.jsonld" "/csv/LOCATION.csv"
        "/csv/LOCATION_HISTORY.csv" none =
      { metadata := some sampleMetadata,
        locations := some (.obj [("status", .str "loaded")]),
        ingestion := none, spatial_join := none,
        errors := ["Data ingestion failed: 500 Server Error"],
        trace := [.metadata, .locations, .ingestion],
        calls := [.fetchAndLoadJsonld "http://x/meta.jsonld",
                  .loadLocationData "/csv/LOCATION.csv" "/csv/LOCATION_HISTORY.csv",
                  .quickIngestDatasource (.str "PM2.5")] } :=
  stage3_failure_short_circuits envStage3Fails "http://x/meta.jsonld" "/csv/LOCATION.csv"
    "/csv/LOCATION_HISTORY.csv" none sampleMetadata (.obj [("status", .str "loaded")])
    (.str "PM2.5") "500 Server Error" rfl rfl rfl rfl

/-- C5: a read with the `working` profile attaches exactly one profile
header (`Accept-Profile: working`); an RPC call with it attaches exactly two
(`Accept-Profile` and `Content-Profile`); the default `backbone` profile
attaches none on either operation. -/
theorem profile_headers_exact :
    (requestHeaders "working").countP isProfileHeader = 1 ∧
    requestHeaders "working" = [("Accept-Profile", "working")] ∧
    (rpcHeaders "working").countP isProfileHeader = 2 ∧
    ("Accept-Profile", "working") ∈ rpcHeaders "working" ∧
    ("Content-Profile", "working") ∈ rpcHeaders "working" ∧
    (requestHeaders "backbone").countP isProfileHeader = 0 ∧
    (rpcHeaders "backbone").countP isProfileHeader = 0 := by
  decide

/-- C4 counterexample: a 304 response has a non-2xx status, yet neither
`_request` nor `_rpc` fails with an HTTP error — `raise_for_status` raises
only for 4xx/5xx, so the body is decoded and returned successfully. -/
theorem non2xx_response_can_succeed :
    ¬(200 ≤ 304 ∧ 304 < 300) ∧
    requestOutcome (.ok { status := 304, body := "{}", jsonBody := some (.obj []) }) =
      .ok (.obj []) ∧
    rpcOutcome (.ok { status := 304, body := "{}", jsonBody := some (.obj []) }) =
      .ok (.obj []) :=
  ⟨by decide, rfl, rfl⟩

/-- C4 amended: `_request` and `_rpc` handle the transport's result
identically; a network failure yields a transport error; a 4xx/5xx status
yields an HTTP error carrying the status and body (never a partially decoded
result); any other status returns exactly the decoded JSON value the
transport received, or a decode failure when the body is not JSON. -/
theorem request_status_handling (t : Except String HttpResponse) :
    requestOutcome t = rpcOutcome t ∧
    (∀ m, t = .error m → requestOutcome t = .error (.transportError m)) ∧
    (∀ r, t = .ok r → 400 ≤ r.status → r.status < 600 →
        requestOutcome t = .error (.httpError r.status r.body)) ∧
    (∀ r j, t = .ok r → ¬(400 ≤ r.status ∧ r.status < 600) → r.jsonBody = some j →
        requestOutcome t = .ok j) ∧
    (∀ r, t = .ok r → ¬(400 ≤ r.status ∧ r.status < 600) → r.jsonBody = none →
        requestOutcome t = .error (.jsonDecodeError r.body)) := by
  refine ⟨?_, ?_, ?_, ?_, ?_⟩
  · cases t <;> rfl
  · rintro m rfl; rfl
  · rintro r rfl h1 h2
    simp [requestOutcome, raiseForStatus, h1, h2]
    rfl
  · rintro r j rfl hns hj
    simp [requestOutcome, raiseForStatus, responseJson, hns, hj]
    rfl
  · rintro r rfl hns hj
    simp [requestOutcome, raiseForStatus, responseJson, hns, hj]
    rfl

/-- Witness for C4's amended theorem: a 404 read fails with the HTTP error
carrying status and body. -/
theorem request_status_handling_witness :
    requestOutcome (.ok { status := 404, body := "not found", jsonBody := none }) =
      .error (.httpError 404 "not found") :=
  (request_status_handling (.ok { status := 404, body := "not found", jsonBody := none })).2.2.1
    { status := 404, body := "not found", jsonBody := none } rfl (by decide) (by decide)

/-- An `eq.`-encoded filter binding is an equality parameter. -/
theorem isEqParam_encode (k v : String) : isEqParam (k, "eq." ++ v) = true := by
  have h : ("eq." ++ v).toList.take 3 = ['e', 'q', '.'] := rfl
  simp [isEqParam, h]

/-- C6 counterexample: the one-entry filter mapping `{"order": "x"}` passed
to `query` together with `order="name.asc"` yields a request carrying zero
equality parameters, not one — the later-set `order` parameter overwrites
the filter's `eq.` parameter. -/
theorem filter_key_collision_loses_eq_param :
    ([("order", "x")] : List (String × String)).length = 1 ∧
    queryParams none [("order", "x")] (some "name.asc") none none =
      [("order", "name.asc")] ∧
    (queryParams none [("order", "x")] (some "name.asc") none none).countP isEqParam = 0 :=
  ⟨rfl, rfl, rfl⟩

/-- C6 amended: when no filter key collides with the reserved
`select`/`order`/`limit`/`offset` parameter names, `get_data_sources` and
`query` carry exactly one `eq.`-prefixed equality parameter per filter entry,
with the value taken verbatim; `query` additionally carries only the
supplied select/order/limit/offset parameters.  (With a collision, the
later-set parameter overwrites the filter's equality parameter.) -/
theorem filters_encode_one_eq_param_each
    (filters : List (String × String)) (select order : Option String)
    (limit offset : Option Int)
    (hnd : (filters.map Prod.fst).Nodup)
    (hres : ∀ kv ∈ filters,
        kv.1 ≠ "select" ∧ kv.1 ≠ "order" ∧ kv.1 ≠ "limit" ∧ kv.1 ≠ "offset") :
    getDataSourcesParams filters = filters.map (fun kv => (kv.1, "eq." ++ kv.2)) ∧
    (getDataSourcesParams filters).countP isEqParam = filters.length ∧
    queryParams select filters order limit offset =
      (if optStrTruthy select then [("select", select.getD "")] else []) ++
      filters.map (fun kv => (kv.1, "eq." ++ kv.2)) ++
      (if optStrTruthy order then [("order", order.getD "")] else []) ++
      (if optIntTruthy limit then [("limit", toString (limit.getD 0))] else []) ++
      (if optIntTruthy offset then [("offset", toString (offset.getD 0))] else []) := by
  have h1 : getDataSourcesParams filters =
      filters.map (fun kv => (kv.1, "eq." ++ kv.2)) := by
    unfold getDataSourcesParams
    rw [foldl_dictSet_eq_append filters [] hnd (fun kv _ => rfl)]
    simp
  refine ⟨h1, ?_, ?_⟩
  · rw [h1, show filters.length = (filters.map (fun kv => (kv.1, "eq." ++ kv.2))).length by
      simp]
    refine List.countP_eq_length.mpr ?_
    intro a ha
    rcases List.mem_map.mp ha with ⟨kv, _, rfl⟩
    exact isEqParam_encode kv.1 kv.2
  · simp only [queryParams]
    have hP0 : (if optStrTruthy select then dictSet [] "select" (select.getD "")
          else ([] : List (String × String))) =
        (if optStrTruthy select then [("select", select.getD "")] else []) := by
      cases optStrTruthy select <;> rfl
    rw [hP0]
    have hfresh0 : ∀ kv ∈ filters,
        dictHasKey (if optStrTruthy select then [("select", select.getD "")] else [])
          kv.1 = false := by
      intro kv hkv
      cases hs : optStrTruthy select
      · simp [dictHasKey_nil]
      · have h : dictHasKey [("select", select.getD "")] kv.1 = false := by
          rw [dictHasKey_cons, dictHasKey_nil]
          simp only [Bool.or_false]
          exact decide_eq_false (Ne.symm (hres kv hkv).1)
        simpa using h
    have h2 : (if !filters.isEmpty then
          filters.foldl (fun acc kv => dictSet acc kv.1 ("eq." ++ kv.2))
            (if optStrTruthy select then [("select", select.getD "")] else [])
        else (if optStrTruthy select then [("select", select.getD "")] else [])) =
        (if optStrTruthy select then [("select", select.getD "")] else []) ++
          filters.map (fun kv => (kv.1, "eq." ++ kv.2)) := by
      by_cases hfe : filters = []
      · subst hfe; simp
      · rw [if_pos (by simp [hfe]), foldl_dictSet_eq_append filters _ hnd hfresh0]
    rw [h2]
    have hselKey : ∀ k' : String, k' ≠ "select" →
        dictHasKey (if optStrTruthy select then [("select", select.getD "")] else [])
          k' = false := by
      intro k' hk'
      cases hs : optStrTruthy select
      · simp [dictHasKey_nil]
      · have h : dictHasKey [("select", select.getD "")] k' = false := by
          rw [dictHasKey_cons, dictHasKey_nil]
          simp only [Bool.or_false]
          exact decide_eq_false (Ne.symm hk')
        simpa using h
    have hmapKey : ∀ k' : String, (∀ kv ∈ filters, kv.1 ≠ k') →
        dictHasKey (filters.map (fun kv => (kv.1, "eq." ++ kv.2))) k' = false := by
      intro k' hk'
      refine dictHasKey_eq_false_of _ _ ?_
      intro kv hkv
      rcases List.mem_map.mp hkv with ⟨kv0, h0, rfl⟩
      exact hk' kv0 h0
    have hO : dictHasKey
        ((if optStrTruthy select then [("select", select.getD "")] else []) ++
          filters.map (fun kv => (kv.1, "eq." ++ kv.2))) "order" = false := by
      rw [dictHasKey_append, hselKey "order" (by decide),
        hmapKey "order" (fun kv hkv => (hres kv hkv).2.1)]
      rfl
    rw [dictSet_opt_fresh _ (optStrTruthy order) "order" (order.getD "") hO]
    have hL : dictHasKey
        (((if optStrTruthy select then [("select", select.getD "")] else []) ++
          filters.map (fun kv => (kv.1, "eq." ++ kv.2))) ++
          (if optStrTruthy order then [("order", order.getD "")] else [])) "limit" =
        false := by
      rw [dictHasKey_append, dictHasKey_append, hselKey "limit" (by decide),
        hmapKey "limit" (fun kv hkv => (hres kv hkv).2.2.1)]
      cases optStrTruthy order <;> simp [dictHasKey_nil, dictHasKey_cons]
    rw [dictSet_opt_fresh _ (optIntTruthy limit) "limit" (toString (limit.getD 0)) hL]
    have hF : dictHasKey
        ((((if optStrTruthy select then [("select", select.getD "")] else []) ++
          filters.map (fun kv => (kv.1, "eq." ++ kv.2))) ++
          (if optStrTruthy order then [("order", order.getD "")] else [])) ++
          (if optIntTruthy limit then [("limit", toString (limit.getD 0))] else []))
          "offset" = false := by
      rw [dictHasKey_append, dictHasKey_append, dictHasKey_append,
        hselKey "offset" (by decide),
        hmapKey "offset" (fun kv hkv => (hres kv hkv).2.2.2)]
      cases optStrTruthy order <;> cases optIntTruthy limit <;>
        simp [dictHasKey_nil, dictHasKey_cons]
    rw [dictSet_opt_fresh _ (optIntTruthy offset) "offset" (toString (offset.getD 0)) hF]

/-- Witness for C6's amended theorem at a concrete query. -/
theorem filters_encode_one_eq_param_each_witness :
    getDataSourcesParams [("city", "FRESNO"), ("state", "CA")] =
      [("city", "eq.FRESNO"), ("state", "eq.CA")] ∧
    queryParams (some "location_id,city") [("city", "FRESNO"), ("state", "CA")]
        (some "city.asc") (some 10) (some 5) =
      [("select", "location_id,city"), ("city", "eq.FRESNO"), ("state", "eq.CA"),
       ("order", "city.asc"), ("limit", "10"), ("offset", "5")] :=
  ⟨(filters_encode_one_eq_param_each [("city", "FRESNO"), ("state", "CA")]
      (some "location_id,city") (some "city.asc") (some 10) (some 5)
      (by decide) (by decide)).1,
   (filters_encode_one_eq_param_each [("city", "FRESNO"), ("state", "CA")]
      (some "location_id,city") (some "city.asc") (some 10) (some 5)
      (by decide) (by decide)).2.2⟩

/-- C10: falsy optional arguments are silently omitted — `get_locations`
with `city=None` or `city=""` sends no `city` filter, `get_location_history`
with `location_id=0` (resp. `person_id=0`) sends no `location_id` (resp.
`entity_id`) filter, and `query` with `limit=0` (resp. `offset=0`) sends no
`limit` (resp. `offset`) parameter, whatever the other arguments are. -/
theorem falsy_optional_arguments_send_no_parameter :
    (∀ state limit, dictHasKey (getLocationsParams none state limit) "city" = false) ∧
    (∀ state limit, dictHasKey (getLocationsParams (some "") state limit) "city" = false) ∧
    (∀ person_id,
        dictHasKey (getLocationHistoryParams (some 0) person_id) "location_id" = false) ∧
    (∀ location_id,
        dictHasKey (getLocationHistoryParams location_id (some 0)) "entity_id" = false) ∧
    (∀ select fil order offset, (∀ kv ∈ fil, kv.1 ≠ "limit") →
        dictHasKey (queryParams select fil order (some 0) offset) "limit" = false) ∧
    (∀ select fil order limit, (∀ kv ∈ fil, kv.1 ≠ "offset") →
        dictHasKey (queryParams select fil order limit (some 0)) "offset" = false) := by
  refine ⟨?_, ?_, ?_, ?_, ?_, ?_⟩
  · intro st lim
    cases hst : optStrTruthy st <;>
      simp [getLocationsParams, hst, dictSet, dictHasKey,
        show optStrTruthy none = false by decide]
  · intro st lim
    cases hst : optStrTruthy st <;>
      simp [getLocationsParams, hst, dictSet, dictHasKey,
        show optStrTruthy (some "") = false by decide]
  · intro p
    cases hp : optIntTruthy p <;>
      simp [getLocationHistoryParams, hp, dictSet, dictHasKey,
        show optIntTruthy (some 0) = false by decide]
  · intro l
    cases hl : optIntTruthy l <;>
      simp [getLocationHistoryParams, hl, dictSet, dictHasKey,
        show optIntTruthy (some 0) = false by decide]
  · intro select fil order offset hk
    simp [queryParams, apply_ite (fun d => dictHasKey d ("limit" : String)),
      dictHasKey_dictSet, dictHasKey_foldl, dictHasKey_cons, dictHasKey_nil,
      optIntTruthy, dictHasKey_eq_false_of fil "limit" hk]
  · intro select fil order limit hk
    simp [queryParams, apply_ite (fun d => dictHasKey d ("offset" : String)),
      dictHasKey_dictSet, dictHasKey_foldl, dictHasKey_cons, dictHasKey_nil,
      optIntTruthy, dictHasKey_eq_false_of fil "offset" hk]

/-- Witness for C10 at concrete queries. -/
theorem falsy_optional_arguments_send_no_parameter_witness :
    dictHasKey (queryParams none [("city", "FRESNO")] none (some 0) none) "limit" = false ∧
    dictHasKey (queryParams none [("city", "FRESNO")] none none (some 0)) "offset" = false :=
  ⟨falsy_optional_arguments_send_no_parameter.2.2.2.2.1 none [("city", "FRESNO")] none none
      (by decide),
   falsy_optional_arguments_send_no_parameter.2.2.2.2.2 none [("city", "FRESNO")] none none
      (by decide)⟩

/-- C7 counterexample: in `envEmptyTable` the data-source record's
`ingested_table` carries the key `"table"` (bound to the empty string) — the
key is present — yet stage 4 never calls `spatial_join_exposure`: the
`if table:` truthiness test treats the present-but-falsy value as missing,
appends the `Could not determine ingested table name` error and leaves
`spatial_join` unset. -/
theorem present_empty_table_key_skips_spatial_join :
    (Json.lookupField [("schema", Json.str "exposure"), ("table", Json.str "")]
        "table").isSome = true ∧
    (runFullPipeline envEmptyTable "u" "lc" "lhc" (some "avpmu_2015")).spatial_join =
      none ∧
    (runFullPipeline envEmptyTable "u" "lc" "lhc" (some "avpmu_2015")).errors =
      ["Could not determine ingested table name"] ∧
    (runFullPipeline envEmptyTable "u" "lc" "lhc" (some "avpmu_2015")).calls =
      [.fetchAndLoadJsonld "u", .loadLocationData "lc" "lhc",
       .quickIngestDatasource (.str "PM2.5"), .getDataSources (.str "PM2.5")] :=
  ⟨rfl, rfl, rfl, rfl⟩

/-- C7 amended: in a stage-4 run (truthy variable identifier, stages 1 and 3
succeeded), the data-source record filtered by the dataset name is read and
`etl_metadata.ingested_table` is extracted; when the `table` key holds a
truthy (non-null, non-empty) value, `spatial_join_exposure` is called with
the variable identifier and `"<schema>.<table>"` (schema defaulting to
`"public"` when absent) and its result is stored in `spatial_join`; when
`table` is missing or falsy, exactly one `Could not determine ingested table
name` error is appended, `spatial_join` stays unset, and the pipeline still
attempts all four stages. -/
theorem stage4_table_truthiness
    (env : Env) (u lc lhc v : String) (hv : v ≠ "")
    (m d ing dsList ds etl ingested schemaVal : Json) (tableOpt : Option Json)
    (h1 : env.fetch_and_load_jsonld u = .ok m)
    (h3 : stage3Extract m = .ok d)
    (hq : env.quick_ingest_datasource d = .ok ing)
    (hg : env.get_data_sources d = .ok dsList)
    (hi : Json.pyIndexZero dsList = .ok ds)
    (he : Json.pyGetD ds "etl_metadata" (.obj []) = .ok etl)
    (ht : Json.pyGetD etl "ingested_table" (.obj []) = .ok ingested)
    (hs : Json.pyGetD ingested "schema" (.str "public") = .ok schemaVal)
    (hta : Json.pyGet ingested "table" = .ok tableOpt) :
    CallEvt.getDataSources d ∈ (runFullPipeline env u lc lhc (some v)).calls ∧
    (runFullPipeline env u lc lhc (some v)).trace =
      [.metadata, .locations, .ingestion, .spatialJoin] ∧
    (optJsonTruthy tableOpt = true →
      CallEvt.spatialJoinExposure v
          (schemaVal.pyStr ++ "." ++ (tableOpt.getD .null).pyStr) ∈
        (runFullPipeline env u lc lhc (some v)).calls ∧
      (runFullPipeline env u lc lhc (some v)).spatial_join =
        (match env.spatial_join_exposure v
            (schemaVal.pyStr ++ "." ++ (tableOpt.getD .null).pyStr) with
         | .ok r => some r
         | .error _ => none)) ∧
    (optJsonTruthy tableOpt = false →
      (runFullPipeline env u lc lhc (some v)).spatial_join = none ∧
      (runFullPipeline env u lc lhc (some v)).errors =
        (runFullPipeline env u lc lhc none).errors ++
          ["Could not determine ingested table name"]) := by
  have hvv : optStrTruthy (some v) = true := by
    simp [optStrTruthy, hv]
  have hvn : optStrTruthy (none : Option String) = false := rfl
  unfold runFullPipeline stage4Run
  simp only [h1, hvv, hvn, h3, hq, hg, hi, he, ht, hs, hta]
  cases htt : optJsonTruthy tableOpt
  · simp only [Bool.false_eq_true, if_false]
    refine ⟨by simp, by simp, by simp, fun _ => ⟨by simp, by simp⟩⟩
  · simp only [if_true]
    cases hsj : env.spatial_join_exposure v
        (schemaVal.pyStr ++ "." ++ (tableOpt.getD .null).pyStr) <;>
      refine ⟨by simp [hsj], by simp [hsj], fun _ => ⟨by simp [hsj], by simp [hsj]⟩,
        by simp [hsj]⟩

/-- Witness for C7's amended theorem: `envAllOk` names schema `exposure` and
table `pm25_data`, so the spatial join is invoked on
`exposure.pm25_data` and its result stored. -/
theorem stage4_table_truthiness_witness :
    CallEvt.spatialJoinExposure "avpmu_2015" "exposure.pm25_data" ∈
      (runFullPipeline envAllOk "u" "lc" "lhc" (some "avpmu_2015")).calls ∧
    (runFullPipeline envAllOk "u" "lc" "lhc" (some "avpmu_2015")).spatial_join =
      some (.obj [("rows", .num 42)]) :=
  (stage4_table_truthiness envAllOk "u" "lc" "lhc" "avpmu_2015" (by decide)
      sampleMetadata (.str "PM2.5")
      (.arr [.obj [("step", .str "download"), ("status", .str "success")]])
      (.arr [.obj [("etl_metadata",
        .obj [("ingested_table",
          .obj [("schema", .str "exposure"), ("table", .str "pm25_data")])])]])
      (.obj [("etl_metadata",
        .obj [("ingested_table",
          .obj [("schema", .str "exposure"), ("table", .str "pm25_data")])])])
      (.obj [("ingested_table",
        .obj [("schema", .str "exposure"), ("table", .str "pm25_data")])])
      (.obj [("schema", .str "exposure"), ("table", .str "pm25_data")])
      (.str "exposure") (some (.str "pm25_data"))
      rfl rfl rfl rfl rfl rfl rfl rfl rfl).2.2.1 (by decide)

/-- Inversion for `splitScheme`: a successful split reconstructs the input. -/
theorem splitScheme_eq_some : ∀ (cs p r : List Char),
    splitScheme cs = some (p, r) → cs = p ++ ':' :: '/' :: '/' :: r := by
  intro cs
  induction cs with
  | nil => intro p r h; simp [splitScheme] at h
  | cons c rest ih =>
      intro p r h
      rw [splitScheme] at h
      split_ifs at h with hcond
      · obtain ⟨hc, htake⟩ := hcond
        rw [Option.some.injEq, Prod.mk.injEq] at h
        obtain ⟨hp, hr⟩ := h
        subst hp
        subst hr
        subst hc
        have hrest : rest = '/' :: '/' :: rest.drop 2 := by
          conv_lhs => rw [← List.take_append_drop 2 rest]
          rw [htake]
          rfl
        rw [List.nil_append]
        exact congrArg _ hrest
      · rcases hsp : splitScheme rest with _ | ⟨p', r'⟩
        · rw [hsp] at h
          simp at h
        · rw [hsp] at h
          simp only [Option.map_some', Option.some.injEq, Prod.mk.injEq] at h
          obtain ⟨hp, hr⟩ := h
          subst hp
          subst hr
          rw [List.cons_append, ← ih p' r' hsp]

/-- C9 counterexample: with the path-bearing base address
`http://localhost/api`, a read of `data_source` is issued to
`http://localhost/data_source` and an RPC call to
`http://localhost/rpc/...` — `urljoin` against the trailing-slash-stripped
base drops the base's last path segment, so the request URL is not the full
base address extended by the resource path. -/
theorem base_path_segment_dropped :
    requestUrl (clientInit "http://localhost/api") "data_source" =
      "http://localhost/data_source" ∧
    rpcUrl (clientInit "http://localhost/api") "fetch_and_load_jsonld" =
      "http://localhost/rpc/fetch_and_load_jsonld" ∧
    requestUrl (clientInit "http://localhost/api") "data_source" ≠
      "http://localhost/api/data_source" := by
  refine ⟨by decide, by decide, by decide⟩

/-- C9 amended: for a base address whose trailing-slash-stripped form is
`scheme://authority` with no path segments, every read GET goes to
`<stripped base>/<resource>` and every RPC POST to
`<stripped base>/rpc/<function>`.  When the base address carries path
segments, relative resolution keeps the base path only up to its last
slash, dropping the final segment. -/
theorem request_urls_relative_to_base
    (base endpoint fn : String) (scheme rest : List Char)
    (hsp : splitScheme (rstripSlash base).toList = some (scheme, rest))
    (hnp : (splitAuthority rest).2 = []) :
    requestUrl (clientInit base) endpoint = rstripSlash base ++ "/" ++ endpoint ∧
    rpcUrl (clientInit base) fn = rstripSlash base ++ "/rpc/" ++ fn := by
  have hb : (rstripSlash base).toList = scheme ++ ':' :: '/' :: '/' :: rest :=
    splitScheme_eq_some _ _ _ hsp
  have hbase : rstripSlash base = String.mk (scheme ++ ':' :: '/' :: '/' :: rest) := by
    rw [show rstripSlash base = String.mk (rstripSlash base).toList from rfl, hb]
  have hauth : (splitAuthority rest).1 = rest := by
    have h := List.takeWhile_append_dropWhile (fun c => decide (c ≠ '/')) rest
    rw [show (splitAuthority rest).2 = rest.dropWhile (fun c => decide (c ≠ '/')) from rfl]
      at hnp
    rw [show (splitAuthority rest).1 = rest.takeWhile (fun c => decide (c ≠ '/')) from rfl]
    rw [hnp, List.append_nil] at h
    exact h
  have hgen : ∀ ep : String,
      urljoinRelative (rstripSlash base) ep =
        rstripSlash base ++ "/" ++ ep := by
    intro ep
    unfold urljoinRelative
    rw [hsp]
    have h2 : splitAuthority rest = (rest, []) := by
      rw [show splitAuthority rest = ((splitAuthority rest).1, (splitAuthority rest).2)
        from rfl, hauth, hnp]
    simp only [h2, List.isEmpty_nil, if_true]
    rw [hbase]
    rw [show (String.mk (scheme ++ ':' :: '/' :: '/' :: rest) ++ "/" ++ ep) =
      String.mk ((scheme ++ ':' :: '/' :: '/' :: rest) ++ ['/'] ++ ep.toList) from rfl]
    apply congrArg
    simp
  constructor
  · exact hgen endpoint
  · rw [show rpcUrl (clientInit base) fn =
        urljoinRelative (rstripSlash base) ("rpc/" ++ fn) from rfl,
      hgen ("rpc/" ++ fn)]
    have hlit : ("/" : String) ++ ("rpc/" ++ fn) = "/rpc/" ++ fn := by
      rw [← String.append_assoc]
      rfl
    rw [String.append_assoc (rstripSlash base) "/" ("rpc/" ++ fn), hlit,
      ← String.append_assoc]

/-- Witness for C9's amended theorem at the default base address. -/
theorem request_urls_relative_to_base_witness :
    requestUrl (clientInit "http://localhost:3000") "data_source" =
      "http://localhost:3000" ++ "/" ++ "data_source" ∧
    rpcUrl (clientInit "http://localhost:3000") "fetch_and_load_jsonld" =
      "http://localhost:3000" ++ "/rpc/" ++ "fetch_and_load_jsonld" :=
  request_urls_relative_to_base "http://localhost:3000" "data_source"
    "fetch_and_load_jsonld" "http".toList "localhost:3000".toList
    (by decide) (by decide)

end GaiaCore
